import Mathlib

/-!
Verification of the meeting-transcript enrichment pipeline.

This file shallowly embeds the core of the repository (the pydantic schemas in
`app/models/`, the idempotency-key derivation in `schemas_common.py`, the
repair helper in `utils/json_repair.py`, and the retry-wrapped orchestration
of `app/extractors/extractor.py` / `app/analyzers/analyzer.py`) and proves the
specification claims about them.  Python machine floats are modelled as exact
rationals (the source performs only order comparisons against the literals
0.0, 0.4, 0.6 and 1.0), Python `datetime` values by their ISO-8601 rendering
(the pipeline only consumes a datetime through `isoformat()`), and Python
exceptions as a tagged error type carrying the exception class and message.
-/

namespace MeetingPipeline

/-- Python `datetime` value, modelled by its ISO-8601 rendering: the code under
verification only ever consumes a `meet_date` through `isoformat()` (in
`compute_idempotency_key` and in prompt preparation), so the embedding keeps
exactly that view. -/
structure Datetime where
  iso : String
deriving DecidableEq, Repr

/-- Optional meeting metadata supplied by the client (`Metadata` in
`app/models/schemas_common.py`): every field defaults to `None`. -/
structure Metadata where
  meeting_id : Option String := none
  customer_id : Option String := none
  customer_name : Option String := none
  banker_id : Option String := none
  banker_name : Option String := none
  meet_type : Option String := none
  meet_date : Option Datetime := none
deriving DecidableEq, Repr

/-- Raw upstream meeting record (`RawMeeting` in
`app/models/schemas_common.py`): all fields required except `customer_email`. -/
structure RawMeeting where
  meet_id : String
  customer_id : String
  customer_name : String
  customer_email : Option String := none
  banker_id : String
  banker_name : String
  meet_date : Datetime
  meet_type : String
  meet_transcription : String
deriving DecidableEq, Repr

/-- Request body of `POST /extract` and `POST /analyze` (`MeetingRequest` in
`app/models/schemas_common.py`). -/
structure MeetingRequest where
  transcript : Option String := none
  metadata : Option Metadata := none
  raw_meeting : Option RawMeeting := none
deriving DecidableEq, Repr

/-- `MeetingRequest.validate_exclusive_fields`: the request is accepted exactly
when `(transcript is not None) XOR (raw_meeting is not None)`.  The source
raises `ValueError` (a 422 at the boundary) when the XOR fails; here the
validator returns the acceptance Boolean. -/
def validate_exclusive_fields (r : MeetingRequest) : Bool :=
  Bool.xor r.transcript.isSome r.raw_meeting.isSome

/-- Canonical internal record (`NormalizedInput` in
`app/models/schemas_common.py`): `transcript` is the only required field. -/
structure NormalizedInput where
  transcript : String
  meeting_id : Option String := none
  customer_id : Option String := none
  customer_name : Option String := none
  banker_id : Option String := none
  banker_name : Option String := none
  meet_type : Option String := none
  meet_date : Option Datetime := none
deriving DecidableEq, Repr

/-- `MeetingRequest.to_normalized`.  With `raw_meeting` present (pydantic
models are always truthy, so `if self.raw_meeting:` is an `is not None` test)
the raw record is mapped field by field, `meet_id` becoming `meeting_id` and
`meet_transcription` becoming `transcript`; otherwise the transcript is used
directly with fields copied from `metadata` (or an all-`None` `Metadata()`
when absent).  The `none` result models the pydantic `ValidationError` that
`NormalizedInput(transcript=None, ...)` would raise in the remaining case,
which `validate_exclusive_fields` rules out. -/
def to_normalized (r : MeetingRequest) : Option NormalizedInput :=
  match r.raw_meeting with
  | some raw =>
      some { transcript := raw.meet_transcription
             meeting_id := some raw.meet_id
             customer_id := some raw.customer_id
             customer_name := some raw.customer_name
             banker_id := some raw.banker_id
             banker_name := some raw.banker_name
             meet_type := some raw.meet_type
             meet_date := some raw.meet_date }
  | none =>
      match r.transcript with
      | none => none
      | some t =>
          let md := r.metadata.getD {}
          some { transcript := t
                 meeting_id := md.meeting_id
                 customer_id := md.customer_id
                 customer_name := md.customer_name
                 banker_id := md.banker_id
                 banker_name := md.banker_name
                 meet_type := md.meet_type
                 meet_date := md.meet_date }

/-- Helper for Python `str.split()` with no separator argument: maximal runs
of non-whitespace characters, with runs of whitespace discarded.  The first
argument accumulates the current word in reverse. -/
def pySplitAux : List Char → List Char → List (List Char)
  | acc, [] => if acc.isEmpty then [] else [acc.reverse]
  | acc, c :: cs =>
    if c.isWhitespace then
      if acc.isEmpty then pySplitAux [] cs else acc.reverse :: pySplitAux [] cs
    else pySplitAux (c :: acc) cs

/-- Python `summary.split()`: whitespace-delimited tokens, empties dropped. -/
def pySplit (s : String) : List String :=
  (pySplitAux [] s.toList).map String.mk

/-- `len(summary.split())` — the word count used by both summary validators. -/
def wordCount (s : String) : Nat := (pySplit s).length

/-- `validate_summary_length` from `app/models/schemas_extract.py` (the
validator in `schemas_analyze.py` is character-for-character the same check):
reject when the word count is below 100 or above 200, citing the actual count
in the error message; otherwise return the summary unchanged. -/
def validate_summary_length (summary : String) : Except String String :=
  if wordCount summary < 100 ∨ wordCount summary > 200 then
    Except.error ("summary deve ter 100-200 palavras, tem " ++ toString (wordCount summary))
  else Except.ok summary

/-- The `Literal["positive", "neutral", "negative"]` sentiment label of
`AnalyzedMeeting`. -/
inductive SentimentLabel
  | positive
  | neutral
  | negative
deriving DecidableEq, Repr

/-- `AnalyzedMeeting.validate_sentiment_score_range`: the score must satisfy
`0.0 <= score <= 1.0`. -/
def validate_sentiment_score_range (score : ℚ) : Except String ℚ :=
  if 0 ≤ score ∧ score ≤ 1 then Except.ok score
  else Except.error ("sentiment_score deve estar entre 0.0 e 1.0, recebido: " ++ toString score)

/-- `AnalyzedMeeting.validate_sentiment_consistency`: the if/elif chain of the
source, with the float literals 0.4 and 0.6 as exact rationals. -/
def validate_sentiment_consistency (label : SentimentLabel) (score : ℚ) : Except String Unit :=
  if label = SentimentLabel.positive ∧ score < 6/10 then
    Except.error ("sentiment_label positive requer score >= 0.6, recebido: " ++ toString score)
  else if label = SentimentLabel.neutral ∧ ¬ (4/10 ≤ score ∧ score < 6/10) then
    Except.error ("sentiment_label neutral requer 0.4 <= score < 0.6, recebido: " ++ toString score)
  else if label = SentimentLabel.negative ∧ 4/10 ≤ score then
    Except.error ("sentiment_label negative requer score < 0.4, recebido: " ++ toString score)
  else Except.ok ()

/-- Whether an `Except` result is a success. -/
def exceptOk {ε α : Type} : Except ε α → Bool
  | Except.ok _ => true
  | Except.error _ => false

/-- Validation of the `(sentiment_label, sentiment_score)` pair of an
`AnalyzedMeeting`: pydantic runs the field-level range validator and then the
model-level consistency validator; the pair passes iff both do. -/
def sentimentValidationOk (label : SentimentLabel) (score : ℚ) : Bool :=
  exceptOk (validate_sentiment_score_range score) &&
    exceptOk (validate_sentiment_consistency label score)

/-- Reduction to a 32-bit word, the implicit arithmetic of `hashlib.sha256`. -/
def mod32 (x : Nat) : Nat := x % 4294967296

/-- Right rotation of a 32-bit word. -/
def rotr32 (n x : Nat) : Nat := mod32 ((x >>> n) ||| (x <<< (32 - n)))

/-- SHA-256 choice function, with 32-bit complement written as xor with the
all-ones word. -/
def shaCh (x y z : Nat) : Nat := (x &&& y) ^^^ ((x ^^^ 4294967295) &&& z)

/-- SHA-256 majority function. -/
def shaMaj (x y z : Nat) : Nat := (x &&& y) ^^^ (x &&& z) ^^^ (y &&& z)

/-- SHA-256 big Sigma0. -/
def bigSigma0 (x : Nat) : Nat := rotr32 2 x ^^^ rotr32 13 x ^^^ rotr32 22 x

/-- SHA-256 big Sigma1. -/
def bigSigma1 (x : Nat) : Nat := rotr32 6 x ^^^ rotr32 11 x ^^^ rotr32 25 x

/-- SHA-256 small sigma0. -/
def smallSigma0 (x : Nat) : Nat := rotr32 7 x ^^^ rotr32 18 x ^^^ (x >>> 3)

/-- SHA-256 small sigma1. -/
def smallSigma1 (x : Nat) : Nat := rotr32 17 x ^^^ rotr32 19 x ^^^ (x >>> 10)

/-- The 64 SHA-256 round constants, written in decimal. -/
def kConsts : List Nat :=
  [1116352408, 1899447441, 3049323471, 3921009573, 961987163, 1508970993,
   2453635748, 2870763221, 3624381080, 310598401, 607225278, 1426881987,
   1925078388, 2162078206, 2614888103, 3248222580, 3835390401, 4022224774,
   264347078, 604807628, 770255983, 1249150122, 1555081692, 1996064986,
   2554220882, 2821834349, 2952996808, 3210313671, 3336571891, 3584528711,
   113926993, 338241895, 666307205, 773529912, 1294757372, 1396182291,
   1695183700, 1986661051, 2177026350, 2456956037, 2730485921, 2820302411,
   3259730800, 3345764771, 3516065817, 3600352804, 4094571909, 275423344,
   430227734, 506948616, 659060556, 883997877, 958139571, 1322822218,
   1537002063, 1747873779, 1955562222, 2024104815, 2227730452, 2361852424,
   2428436474, 2756734187, 3204031479, 3329325298]

/-- The eight SHA-256 working registers. -/
structure Regs where
  a : Nat
  b : Nat
  c : Nat
  d : Nat
  e : Nat
  f : Nat
  g : Nat
  h : Nat
deriving DecidableEq, Repr

/-- The SHA-256 initial hash value, written in decimal. -/
def initRegs : Regs :=
  { a := 1779033703, b := 3144134277, c := 1013904242, d := 2773480762,
    e := 1359893119, f := 2600822924, g := 528734635, h := 1541459225 }

/-- One SHA-256 compression round. -/
def shaRound (st : Regs) (kt wt : Nat) : Regs :=
  let t1 := mod32 (st.h + bigSigma1 st.e + shaCh st.e st.f st.g + kt + wt)
  let t2 := mod32 (bigSigma0 st.a + shaMaj st.a st.b st.c)
  { a := mod32 (t1 + t2), b := st.a, c := st.b, d := st.c,
    e := mod32 (st.d + t1), f := st.e, g := st.f, h := st.g }

/-- The 64 compression rounds, driven by the constant list and the message
schedule in lockstep. -/
def shaRounds : List Nat → List Nat → Regs → Regs
  | kt :: ks, wt :: ws, st => shaRounds ks ws (shaRound st kt wt)
  | _, _, st => st

/-- Extends a 16-word block to the 64-word message schedule; the fuel argument
is the number of words still to append (48 for SHA-256). -/
def extendSchedule : Nat → List Nat → List Nat
  | 0, w => w
  | n + 1, w =>
    let t := w.length
    let x := mod32 (smallSigma1 (w.getD (t - 2) 0) + w.getD (t - 7) 0 +
                    smallSigma0 (w.getD (t - 15) 0) + w.getD (t - 16) 0)
    extendSchedule n (w ++ [x])

/-- Processes one 512-bit block: schedule, 64 rounds, then the feed-forward
addition of the incoming registers. -/
def processBlock (st : Regs) (block : List Nat) : Regs :=
  let w := extendSchedule 48 block
  let r := shaRounds kConsts w st
  { a := mod32 (st.a + r.a), b := mod32 (st.b + r.b), c := mod32 (st.c + r.c),
    d := mod32 (st.d + r.d), e := mod32 (st.e + r.e), f := mod32 (st.f + r.f),
    g := mod32 (st.g + r.g), h := mod32 (st.h + r.h) }

/-- UTF-8 encoding of one character, the `base.encode("utf-8")` step of
`compute_idempotency_key`. -/
def utf8Bytes (c : Char) : List Nat :=
  let n := c.toNat
  if n < 128 then [n]
  else if n < 2048 then [192 ||| (n >>> 6), 128 ||| (n &&& 63)]
  else if n < 65536 then
    [224 ||| (n >>> 12), 128 ||| ((n >>> 6) &&& 63), 128 ||| (n &&& 63)]
  else
    [240 ||| (n >>> 18), 128 ||| ((n >>> 12) &&& 63),
     128 ||| ((n >>> 6) &&& 63), 128 ||| (n &&& 63)]

/-- UTF-8 bytes of a string. -/
def strBytes (s : String) : List Nat := (s.toList.map utf8Bytes).flatten

/-- The 64-bit big-endian byte rendering of the message bit length. -/
def lenBytes64 (n : Nat) : List Nat :=
  [n / 2 ^ 56 % 256, n / 2 ^ 48 % 256, n / 2 ^ 40 % 256, n / 2 ^ 32 % 256,
   n / 2 ^ 24 % 256, n / 2 ^ 16 % 256, n / 2 ^ 8 % 256, n % 256]

/-- SHA-256 padding: a 0x80 byte, zeros to 56 mod 64, then the bit length. -/
def padMessage (msg : List Nat) : List Nat :=
  let padZeros := (119 - msg.length % 64) % 64
  msg ++ 128 :: (List.replicate padZeros 0 ++ lenBytes64 (8 * msg.length))

/-- Big-endian grouping of bytes into 32-bit words. -/
def bytesToWords : List Nat → List Nat
  | b0 :: b1 :: b2 :: b3 :: rest =>
      (((b0 * 256 + b1) * 256 + b2) * 256 + b3) :: bytesToWords rest
  | _ => []

/-- Grouping of words into 16-word blocks. -/
def wordsToBlocks : List Nat → List (List Nat)
  | w0 :: w1 :: w2 :: w3 :: w4 :: w5 :: w6 :: w7 ::
    w8 :: w9 :: w10 :: w11 :: w12 :: w13 :: w14 :: w15 :: rest =>
      [w0, w1, w2, w3, w4, w5, w6, w7, w8, w9, w10, w11, w12, w13, w14, w15] ::
        wordsToBlocks rest
  | _ => []

/-- The SHA-256 digest registers of the UTF-8 encoding of a string. -/
def sha256Regs (s : String) : Regs :=
  (wordsToBlocks (bytesToWords (padMessage (strBytes s)))).foldl processBlock initRegs

/-- The sixteen lowercase hexadecimal digit characters, in value order. -/
def hexAlphabet : List Char := "0123456789abcdef".toList

/-- The lowercase hexadecimal digit of a value below 16. -/
def hexDigit (n : Nat) : Char :=
  if n < 10 then Char.ofNat (48 + n) else Char.ofNat (87 + n)

/-- The eight lowercase hex digits of a 32-bit word, most significant first. -/
def hex8 (n : Nat) : List Char :=
  [hexDigit (n / 16 ^ 7 % 16), hexDigit (n / 16 ^ 6 % 16),
   hexDigit (n / 16 ^ 5 % 16), hexDigit (n / 16 ^ 4 % 16),
   hexDigit (n / 16 ^ 3 % 16), hexDigit (n / 16 ^ 2 % 16),
   hexDigit (n / 16 % 16), hexDigit (n % 16)]

/-- The 64 hex characters of a digest, register by register. -/
def digestHex (r : Regs) : List Char :=
  hex8 r.a ++ hex8 r.b ++ hex8 r.c ++ hex8 r.d ++
    hex8 r.e ++ hex8 r.f ++ hex8 r.g ++ hex8 r.h

/-- `hashlib.sha256(s.encode("utf-8")).hexdigest()`: the lowercase-hex SHA-256
digest of a string. -/
def sha256Hex (s : String) : String := String.mk (digestHex (sha256Regs s))

/-- `NormalizedInput.compute_idempotency_key`.  The source's presence test is
Python truthiness — `if not (self.meeting_id and self.meet_date and
self.customer_id): return None` — so a `meeting_id` or `customer_id` that is
present but equal to the empty string also yields `None`, while a `datetime`
object is always truthy.  Otherwise the key is the lowercase-hex SHA-256 of
the separator-free concatenation
`meeting_id + meet_date.isoformat() + customer_id`. -/
def compute_idempotency_key (inp : NormalizedInput) : Option String :=
  match inp.meeting_id, inp.meet_date, inp.customer_id with
  | some mid, some d, some cid =>
      if mid = "" ∨ cid = "" then none
      else some (sha256Hex (mid ++ d.iso ++ cid))
  | _, _, _ => none

/-- Python exception values as the pipeline distinguishes them: the three
retryable `openai` classes, pydantic validation failures (carrying the
validation message), and plain `Exception(msg)`. -/
inductive PyExc where
  | rateLimitError
  | apiTimeoutError
  | apiError
  | validationError (msg : String)
  | exc (msg : String)
deriving DecidableEq, Repr

/-- The `retry_if_exception_type((RateLimitError, APITimeoutError, APIError))`
predicate of the `@retry` decorators in `extractor.py` and `analyzer.py`. -/
def retryable : PyExc → Bool
  | PyExc.rateLimitError => true
  | PyExc.apiTimeoutError => true
  | PyExc.apiError => true
  | _ => false

/-- Observable side effects of one pipeline run: primary generation calls,
repair calls, the `record_repair_attempt` metric, and the assignment of
`idempotency_key` on the validated record. -/
inductive Event where
  | genCall (attempt : Nat)
  | repairCall (attempt : Nat)
  | metricRepair (outcome : String)
  | stampKey
deriving DecidableEq, Repr

/-- Number of primary generation calls in a trace. -/
def countGenCalls (evs : List Event) : Nat :=
  (evs.filter fun e => match e with | Event.genCall _ => true | _ => false).length

/-- Number of repair calls in a trace. -/
def countRepairCalls (evs : List Event) : Nat :=
  (evs.filter fun e => match e with | Event.repairCall _ => true | _ => false).length

/-- Number of `record_repair_attempt` emissions in a trace, any outcome. -/
def countRepairMetrics (evs : List Event) : Nat :=
  (evs.filter fun e => match e with | Event.metricRepair _ => true | _ => false).length

/-- Number of `record_repair_attempt(outcome)` emissions in a trace. -/
def countRepairMetric (outcome : String) (evs : List Event) : Nat :=
  (evs.filter fun e =>
    match e with | Event.metricRepair o => o == outcome | _ => false).length

/-- Number of idempotency-key assignments in a trace. -/
def countStamps (evs : List Event) : Nat :=
  (evs.filter fun e => match e with | Event.stampKey => true | _ => false).length

/-- The external collaborators of one request, per attempt number (attempts
are numbered from 1 as tenacity does): the primary generation call
(`chain_raw.ainvoke` plus the JSON parse), pydantic `model_validate` on a
payload, the repair chain call, and the wall-clock seconds the repair chain
call takes (consumed by the `asyncio.wait_for` deadline). -/
structure PipelineEnv (Payload Record : Type) where
  gen : Nat → Except PyExc Payload
  validate : Payload → Except String Record
  repairResult : Nat → Except PyExc Payload
  repairSeconds : Nat → Nat

/-- `MAX_RETRY_ATTEMPTS` of `extractor.py` / `analyzer.py`. -/
def MAX_RETRY_ATTEMPTS : Nat := 3

/-- `REPAIR_TIMEOUT_SECONDS` of `utils/json_repair.py` / `extractor.py`. -/
def REPAIR_TIMEOUT_SECONDS : Nat := 15

/-- `IDEMPOTENCY_KEY_PLACEHOLDER` of `extractor.py` / `analyzer.py`. -/
def IDEMPOTENCY_KEY_PLACEHOLDER : String := "no-idempotency-key-available"

/-- The exception `repair_json` raises when `asyncio.wait_for` signals
`TimeoutError`: a plain `Exception` whose message interpolates
`REPAIR_TIMEOUT_SECONDS`. -/
def repairTimeoutError : PyExc :=
  PyExc.exc ("Timeout na operação de reparo: " ++ toString REPAIR_TIMEOUT_SECONDS ++ "s")

/-- `repair_json` (`utils/json_repair.py`; `_repair_json` in `extractor.py` is
the same flow): the repair chain call runs under `asyncio.wait_for` with a
`REPAIR_TIMEOUT_SECONDS` deadline — exceeding it raises the plain timeout
`Exception`; any other exception from the chain is re-raised unchanged, and a
successful result is returned as the repaired payload. -/
def repair_json {P R : Type} (env : PipelineEnv P R) (attempt : Nat) : Except PyExc P :=
  if env.repairSeconds attempt > REPAIR_TIMEOUT_SECONDS then
    Except.error repairTimeoutError
  else env.repairResult attempt

/-- One execution of the body of `extract_meeting_chain` (`extractor.py`
lines 349-543; `analyze_sentiment_chain` in `analyzer.py` has the identical
control flow with the analyze schema): call the LLM, validate, on validation
failure repair exactly once within this body and re-validate — recording the
repair-outcome metric on both branches — and stamp the idempotency key
(derived key, or the placeholder when underivable) only after a validation
has succeeded.  A failed re-validation raises the pydantic error; a failed
repair call re-raises its own exception.  The trace records the externally
visible events in order. -/
def attemptBody {P R : Type} (env : PipelineEnv P R) (inp : NormalizedInput) (n : Nat) :
    Except PyExc (R × String) × List Event :=
  match env.gen n with
  | Except.error e => (Except.error e, [Event.genCall n])
  | Except.ok raw =>
    match env.validate raw with
    | Except.ok record =>
        (Except.ok (record, (compute_idempotency_key inp).getD IDEMPOTENCY_KEY_PLACEHOLDER),
         [Event.genCall n, Event.stampKey])
    | Except.error _ =>
      match repair_json env n with
      | Except.error e =>
          (Except.error e,
           [Event.genCall n, Event.repairCall n, Event.metricRepair "failed"])
      | Except.ok repaired =>
        match env.validate repaired with
        | Except.ok record =>
            (Except.ok (record, (compute_idempotency_key inp).getD IDEMPOTENCY_KEY_PLACEHOLDER),
             [Event.genCall n, Event.repairCall n, Event.metricRepair "success",
              Event.stampKey])
        | Except.error msg =>
            (Except.error (PyExc.validationError msg),
             [Event.genCall n, Event.repairCall n, Event.metricRepair "failed"])

/-- The tenacity `@retry` decorator with the source's arguments
(`reraise=True`, `stop=stop_after_attempt(MAX_RETRY_ATTEMPTS)`,
`retry=retry_if_exception_type((RateLimitError, APITimeoutError, APIError))`):
run the body; on success return; on a retryable exception with the attempt
count below the stop bound run the body again, otherwise re-raise the last
exception unchanged.  The fuel argument starts at `MAX_RETRY_ATTEMPTS` and
strictly dominates the remaining attempts, so the zero-fuel branch is never
reached from `extract_meeting_chain`. -/
def tenacityFrom {α : Type} (body : Nat → Except PyExc α × List Event) :
    Nat → Nat → Except PyExc α × List Event
  | _, 0 => (Except.error (PyExc.exc "tenacity"), [])
  | attempt, fuel + 1 =>
    match body attempt with
    | (Except.ok a, evs) => (Except.ok a, evs)
    | (Except.error e, evs) =>
      if retryable e = true ∧ attempt < MAX_RETRY_ATTEMPTS then
        let rest := tenacityFrom body (attempt + 1) fuel
        (rest.1, evs ++ rest.2)
      else (Except.error e, evs)

/-- `extract_meeting_chain` as deployed: the retry decorator wrapping the
whole body, starting at attempt 1.  `analyze_sentiment_chain` is the same
construction over the analyze schema, so every theorem below about this
definition covers both feature chains. -/
def extract_meeting_chain {P R : Type} (env : PipelineEnv P R) (inp : NormalizedInput) :
    Except PyExc (R × String) × List Event :=
  tenacityFrom (attemptBody env inp) 1 MAX_RETRY_ATTEMPTS

/-- The retry decorator around a bare dispatch `f` (one generation call per
attempt), used to state the retry policy in isolation. -/
def dispatchWithRetry {α : Type} (f : Nat → Except PyExc α) :
    Except PyExc α × List Event :=
  tenacityFrom (fun n => (f n, [Event.genCall n])) 1 MAX_RETRY_ATTEMPTS

/-- A summary consisting of `n` copies of one word separated by single
spaces, used as concrete test input for the word-count validator. -/
def sampleWords : Nat → String
  | 0 => ""
  | 1 => "palavra"
  | n + 2 => "palavra " ++ sampleWords (n + 1)

/-- Every value below 16 renders to a character of the lowercase hex
alphabet. -/
theorem hexDigit_mem : ∀ m < 16, hexDigit m ∈ hexAlphabet := by decide

/-- Every character emitted for one digest word is lowercase hex. -/
theorem hex8_mem (n : Nat) : ∀ c ∈ hex8 n, c ∈ hexAlphabet := by
  intro c hc
  simp only [hex8, List.mem_cons, List.not_mem_nil, or_false] at hc
  rcases hc with rfl | rfl | rfl | rfl | rfl | rfl | rfl | rfl <;>
    exact hexDigit_mem _ (Nat.mod_lt _ (by norm_num))

/-- A rendered digest always has 64 characters. -/
theorem sha256Hex_length (s : String) : (sha256Hex s).length = 64 := rfl

/-- Every character of a rendered digest is lowercase hex. -/
theorem sha256Hex_chars (s : String) : ∀ c ∈ (sha256Hex s).data, c ∈ hexAlphabet := by
  intro c hc
  have hc2 : c ∈ digestHex (sha256Regs s) := hc
  simp only [digestHex, List.mem_append] at hc2
  rcases hc2 with ((((((h | h) | h) | h) | h) | h) | h) | h <;> exact hex8_mem _ _ h

/-- C3: for every label and every score in [0, 1], the pair validation of
`AnalyzedMeeting` (score range check then label/score consistency check)
succeeds iff `(positive ∧ score ≥ 0.6) ∨ (neutral ∧ 0.4 ≤ score < 0.6) ∨
(negative ∧ score < 0.4)`; in particular 0.6 is valid only with `positive`
and 0.4 only with `neutral`. -/
theorem sentiment_consistency_law (label : SentimentLabel) (score : ℚ)
    (h0 : 0 ≤ score) (h1 : score ≤ 1) :
    sentimentValidationOk label score = true ↔
      ((label = SentimentLabel.positive ∧ 6/10 ≤ score) ∨
       (label = SentimentLabel.neutral ∧ 4/10 ≤ score ∧ score < 6/10) ∨
       (label = SentimentLabel.negative ∧ score < 4/10)) := by
  cases label <;>
    simp only [sentimentValidationOk, validate_sentiment_score_range,
      validate_sentiment_consistency, exceptOk] <;>
    split_ifs <;> simp_all

/-- C3 witness: the boundary score 0.6 validates with the label positive. -/
theorem sentiment_consistency_law_witness :
    sentimentValidationOk SentimentLabel.positive (6/10) = true :=
  (sentiment_consistency_law SentimentLabel.positive (6/10) (by norm_num)
    (by norm_num)).mpr (Or.inl ⟨rfl, le_refl _⟩)

/-- C4: for every summary string, validation succeeds (returning the summary)
iff the whitespace word count lies in the closed interval [100, 200], and a
rejected summary gets the error message citing the actual word count. -/
theorem summary_bound_enforcement (s : String) :
    (validate_summary_length s = Except.ok s ↔
      100 ≤ wordCount s ∧ wordCount s ≤ 200) ∧
    (wordCount s < 100 ∨ 200 < wordCount s →
      validate_summary_length s =
        Except.error ("summary deve ter 100-200 palavras, tem " ++ toString (wordCount s))) := by
  unfold validate_summary_length
  constructor
  · split_ifs with h
    · constructor
      · intro he; exact absurd he (by simp)
      · intro hr; exfalso; omega
    · constructor
      · intro _; omega
      · intro _; rfl
  · intro hbad
    rw [if_pos (by omega)]

set_option maxRecDepth 40000 in
/-- C4 witness: a 100-word summary validates and a 99-word summary is
rejected with the message citing 99 words. -/
theorem summary_bound_enforcement_witness :
    validate_summary_length (sampleWords 100) = Except.ok (sampleWords 100) ∧
    validate_summary_length (sampleWords 99) =
      Except.error ("summary deve ter 100-200 palavras, tem " ++
        toString (wordCount (sampleWords 99))) :=
  ⟨(summary_bound_enforcement (sampleWords 100)).1.mpr (by decide),
   (summary_bound_enforcement (sampleWords 99)).2 (by decide)⟩

/-- C8 counterexample: the request `{"transcript": ""}` passes the
request-validation boundary (the XOR check only tests for `None`), and the
`NormalizedInput` it normalizes to has the empty transcript — refuting the
claim that every accepted payload yields a non-empty transcript. -/
theorem empty_transcript_accepted :
    validate_exclusive_fields { transcript := some "" } = true ∧
    (to_normalized { transcript := some "" }).map NormalizedInput.transcript = some "" :=
  ⟨rfl, rfl⟩

/-- An accepted request has exactly one shape, and normalization cannot fail
on it.  Shared between the shape-invariant and normalizer theorems. -/
theorem accepted_shape (r : MeetingRequest) (h : validate_exclusive_fields r = true) :
    ((r.transcript.isSome = true ∧ r.raw_meeting = none) ∨
     (r.transcript = none ∧ r.raw_meeting.isSome = true)) ∧
    ∃ n, to_normalized r = some n := by
  obtain ⟨ot, om, orw⟩ := r
  rcases ot with _ | t <;> rcases orw with _ | raw
  · exact absurd h (by simp [validate_exclusive_fields])
  · exact ⟨Or.inr ⟨rfl, rfl⟩, ⟨_, rfl⟩⟩
  · exact ⟨Or.inl ⟨rfl, rfl⟩, ⟨_, rfl⟩⟩
  · exact absurd h (by simp [validate_exclusive_fields])

/-- C8 amended: for every request accepted by the boundary validator, exactly
one of the two input shapes is present — never both, never neither — and
normalization produces a `NormalizedInput` (whose transcript may however be
the empty string, since no non-emptiness check exists). -/
theorem exclusive_shape_invariant (r : MeetingRequest)
    (h : validate_exclusive_fields r = true) :
    ((r.transcript.isSome = true ∧ r.raw_meeting = none) ∨
     (r.transcript = none ∧ r.raw_meeting.isSome = true)) ∧
    ∃ n, to_normalized r = some n :=
  accepted_shape r h

/-- C8 witness: a raw-meeting request is accepted and classified as exactly
the raw shape. -/
theorem exclusive_shape_invariant_witness :
    (({ transcript := none, metadata := none,
        raw_meeting := some
          { meet_id := "MTG123", customer_id := "CUST456",
            customer_name := "ACME S.A.", banker_id := "BKR789",
            banker_name := "Pedro", meet_date := ⟨"2025-09-10T14:30:00"⟩,
            meet_type := "Primeira", meet_transcription := "Cliente: Bom dia" } }
      : MeetingRequest).transcript = none ∧
     ∃ n, to_normalized
          { transcript := none, metadata := none,
            raw_meeting := some
              { meet_id := "MTG123", customer_id := "CUST456",
                customer_name := "ACME S.A.", banker_id := "BKR789",
                banker_name := "Pedro", meet_date := ⟨"2025-09-10T14:30:00"⟩,
                meet_type := "Primeira", meet_transcription := "Cliente: Bom dia" } } =
        some n) := by
  have h := exclusive_shape_invariant
    { transcript := none, metadata := none,
      raw_meeting := some
        { meet_id := "MTG123", customer_id := "CUST456",
          customer_name := "ACME S.A.", banker_id := "BKR789",
          banker_name := "Pedro", meet_date := ⟨"2025-09-10T14:30:00"⟩,
          meet_type := "Primeira", meet_transcription := "Cliente: Bom dia" } }
    rfl
  rcases h with ⟨hshape, hnorm⟩
  rcases hshape with ⟨habs, _⟩ | ⟨hnone, _⟩
  · exact absurd habs (by simp)
  · exact ⟨hnone, hnorm⟩

/-- C9: the normalizer is a pure total mapping — the raw-meeting shape maps
`meet_transcription` to `transcript` and `meet_id` to `meeting_id` with every
other field copied one-to-one; the transcript shape takes the transcript
directly and copies each metadata field, absent metadata yielding all-`None`
optionals; and normalization never fails on a payload the boundary
accepted. -/
theorem normalizer_mapping :
    (∀ (r : MeetingRequest) (raw : RawMeeting), r.raw_meeting = some raw →
      to_normalized r = some
        { transcript := raw.meet_transcription, meeting_id := some raw.meet_id,
          customer_id := some raw.customer_id,
          customer_name := some raw.customer_name,
          banker_id := some raw.banker_id, banker_name := some raw.banker_name,
          meet_type := some raw.meet_type, meet_date := some raw.meet_date }) ∧
    (∀ (r : MeetingRequest) (t : String) (md : Metadata),
      r.raw_meeting = none → r.transcript = some t → r.metadata = some md →
      to_normalized r = some
        { transcript := t, meeting_id := md.meeting_id,
          customer_id := md.customer_id, customer_name := md.customer_name,
          banker_id := md.banker_id, banker_name := md.banker_name,
          meet_type := md.meet_type, meet_date := md.meet_date }) ∧
    (∀ (r : MeetingRequest) (t : String),
      r.raw_meeting = none → r.transcript = some t → r.metadata = none →
      to_normalized r = some { transcript := t }) ∧
    (∀ r : MeetingRequest, validate_exclusive_fields r = true →
      (to_normalized r).isSome = true) := by
  refine ⟨?_, ?_, ?_, ?_⟩
  · intro r raw hr; simp [to_normalized, hr]
  · intro r t md hr ht hm; simp [to_normalized, hr, ht, hm]
  · intro r t hr ht hm; simp [to_normalized, hr, ht, hm]
  · intro r h
    rcases (accepted_shape r h).2 with ⟨n, hn⟩
    rw [hn]; rfl

/-- C9 witness: the raw-meeting conversion at a concrete record. -/
theorem normalizer_mapping_witness :
    to_normalized
      { raw_meeting := some
          { meet_id := "MTG123", customer_id := "CUST456",
            customer_name := "ACME S.A.", banker_id := "BKR789",
            banker_name := "Pedro", meet_date := ⟨"2025-09-10T14:30:00"⟩,
            meet_type := "Primeira", meet_transcription := "Cliente: Bom dia" } } =
      some
        { transcript := "Cliente: Bom dia", meeting_id := some "MTG123",
          customer_id := some "CUST456", customer_name := some "ACME S.A.",
          banker_id := some "BKR789", banker_name := some "Pedro",
          meet_type := some "Primeira",
          meet_date := some ⟨"2025-09-10T14:30:00"⟩ } :=
  normalizer_mapping.1 _ _ rfl

/-- C5 counterexample: a record whose `meeting_id`, `meet_date` and
`customer_id` are all present — `meeting_id` being the empty string — derives
no key at all (the source tests truthiness, not presence), refuting the claim
that presence of the triple suffices for a digest. -/
theorem idempotency_presence_counterexample :
    ({ transcript := "Cliente: Bom dia", meeting_id := some "",
       customer_id := some "CUST456",
       meet_date := some ⟨"2025-09-10T14:30:00"⟩ } : NormalizedInput).meeting_id.isSome
      = true ∧
    ({ transcript := "Cliente: Bom dia", meeting_id := some "",
       customer_id := some "CUST456",
       meet_date := some ⟨"2025-09-10T14:30:00"⟩ } : NormalizedInput).meet_date.isSome
      = true ∧
    ({ transcript := "Cliente: Bom dia", meeting_id := some "",
       customer_id := some "CUST456",
       meet_date := some ⟨"2025-09-10T14:30:00"⟩ } : NormalizedInput).customer_id.isSome
      = true ∧
    compute_idempotency_key
      { transcript := "Cliente: Bom dia", meeting_id := some "",
        customer_id := some "CUST456",
        meet_date := some ⟨"2025-09-10T14:30:00"⟩ } = none :=
  ⟨rfl, rfl, rfl, rfl⟩

/-- C5 amended: when `meeting_id`, `meet_date` and `customer_id` are all
present and the two identifier strings are non-empty (Python truthiness), the
deriver returns the lowercase-hex SHA-256 digest — 64 lowercase hexadecimal
characters — of the separator-free concatenation
`meeting_id + meet_date.isoformat() + customer_id`; otherwise it returns
`None`; and the key depends only on that triple, so records differing only in
`transcript` (or any other field) get identical keys. -/
theorem idempotency_key_spec :
    (∀ (inp : NormalizedInput) (mid cid : String) (d : Datetime),
      inp.meeting_id = some mid → inp.meet_date = some d →
      inp.customer_id = some cid → mid ≠ "" → cid ≠ "" →
      compute_idempotency_key inp = some (sha256Hex (mid ++ d.iso ++ cid))) ∧
    (∀ s : String, (sha256Hex s).length = 64 ∧
      ∀ c ∈ (sha256Hex s).data, c ∈ hexAlphabet) ∧
    (∀ inp : NormalizedInput,
      inp.meeting_id = none ∨ inp.meeting_id = some "" ∨ inp.meet_date = none ∨
        inp.customer_id = none ∨ inp.customer_id = some "" →
      compute_idempotency_key inp = none) ∧
    (∀ a b : NormalizedInput, a.meeting_id = b.meeting_id →
      a.meet_date = b.meet_date → a.customer_id = b.customer_id →
      compute_idempotency_key a = compute_idempotency_key b) := by
  refine ⟨?_, ?_, ?_, ?_⟩
  · intro inp mid cid d hm hd hc hmid hcid
    simp [compute_idempotency_key, hm, hd, hc, hmid, hcid]
  · intro s
    exact ⟨sha256Hex_length s, sha256Hex_chars s⟩
  · intro inp habs
    rcases hm : inp.meeting_id with _ | mid <;>
      rcases hd : inp.meet_date with _ | d <;>
      rcases hc : inp.customer_id with _ | cid
    all_goals simp_all [compute_idempotency_key]
  · intro a b hm hd hc
    unfold compute_idempotency_key
    rw [hm, hd, hc]

/-- C5 witness: the derived key at a concrete fully-populated record. -/
theorem idempotency_key_spec_witness :
    compute_idempotency_key
      { transcript := "qualquer transcricao", meeting_id := some "MTG123",
        customer_id := some "CUST456",
        meet_date := some ⟨"2025-09-10T14:30:00"⟩ } =
      some (sha256Hex ("MTG123" ++ "2025-09-10T14:30:00" ++ "CUST456")) :=
  idempotency_key_spec.1 _ "MTG123" "CUST456" ⟨"2025-09-10T14:30:00"⟩
    rfl rfl rfl (by decide) (by decide)

/-- C10: the presence test of the idempotency-key deriver is Python
truthiness, not an `is not None` check: a `meeting_id` or `customer_id`
present as the empty string yields `None` exactly as a missing field does, so
two records differing only in empty-string versus missing identifier derive
the same (null) key. -/
theorem idempotency_key_truthiness :
    (∀ inp : NormalizedInput, inp.meeting_id = some "" →
      compute_idempotency_key inp = none) ∧
    (∀ inp : NormalizedInput, inp.customer_id = some "" →
      compute_idempotency_key inp = none) ∧
    (∀ a b : NormalizedInput, a.meeting_id = some "" → b.meeting_id = none →
      compute_idempotency_key a = compute_idempotency_key b) ∧
    (∀ a b : NormalizedInput, a.customer_id = some "" → b.customer_id = none →
      compute_idempotency_key a = compute_idempotency_key b) := by
  have hmid : ∀ inp : NormalizedInput, inp.meeting_id = some "" →
      compute_idempotency_key inp = none := by
    intro inp h
    rcases hd : inp.meet_date with _ | d <;>
      rcases hc : inp.customer_id with _ | cid <;>
      simp [compute_idempotency_key, h, hd, hc]
  have hcid : ∀ inp : NormalizedInput, inp.customer_id = some "" →
      compute_idempotency_key inp = none := by
    intro inp h
    rcases hm : inp.meeting_id with _ | mid <;>
      rcases hd : inp.meet_date with _ | d <;>
      simp [compute_idempotency_key, h, hm, hd]
  have hnone : ∀ inp : NormalizedInput, inp.meeting_id = none →
      compute_idempotency_key inp = none := by
    intro inp h; simp [compute_idempotency_key, h]
  have hnone2 : ∀ inp : NormalizedInput, inp.customer_id = none →
      compute_idempotency_key inp = none := by
    intro inp h
    rcases hm : inp.meeting_id with _ | mid <;>
      rcases hd : inp.meet_date with _ | d <;>
      simp [compute_idempotency_key, h, hm, hd]
  exact ⟨hmid, hcid,
    fun a b ha hb => by rw [hmid a ha, hnone b hb],
    fun a b ha hb => by rw [hcid a ha, hnone2 b hb]⟩

/-- C10 witness: two concrete records differing only in empty-string versus
missing `meeting_id` both derive no key. -/
theorem idempotency_key_truthiness_witness :
    compute_idempotency_key
      { transcript := "t", meeting_id := some "", customer_id := some "CUST456",
        meet_date := some ⟨"2025-09-10T14:30:00"⟩ } =
    compute_idempotency_key
      { transcript := "t", meeting_id := none, customer_id := some "CUST456",
        meet_date := some ⟨"2025-09-10T14:30:00"⟩ } :=
  idempotency_key_truthiness.2.2.1 _ _ rfl rfl

/-- Gen-call counting distributes over trace concatenation. -/
theorem countGenCalls_append (l1 l2 : List Event) :
    countGenCalls (l1 ++ l2) = countGenCalls l1 + countGenCalls l2 := by
  simp [countGenCalls, List.filter_append]

/-- Stamp counting distributes over trace concatenation. -/
theorem countStamps_append (l1 l2 : List Event) :
    countStamps (l1 ++ l2) = countStamps l1 + countStamps l2 := by
  simp [countStamps, List.filter_append]

/-- The retried dispatch performs at most `fuel` generation calls. -/
theorem dispatch_genCalls_le {α : Type} (f : Nat → Except PyExc α) :
    ∀ (fuel attempt : Nat),
      countGenCalls (tenacityFrom (fun n => (f n, [Event.genCall n])) attempt fuel).2
        ≤ fuel := by
  intro fuel
  induction fuel with
  | zero => intro a; simp [tenacityFrom, countGenCalls]
  | succ m ih =>
    intro a
    cases hf : f a with
    | ok v => simp [tenacityFrom, hf, countGenCalls]
    | error e =>
      by_cases hcond : retryable e = true ∧ a < MAX_RETRY_ATTEMPTS
      · have hrun : tenacityFrom (fun n => (f n, [Event.genCall n])) a (m + 1) =
            ((tenacityFrom (fun n => (f n, [Event.genCall n])) (a + 1) m).1,
             [Event.genCall a] ++
               (tenacityFrom (fun n => (f n, [Event.genCall n])) (a + 1) m).2) := by
          simp [tenacityFrom, hf, hcond]
        rw [hrun]
        have := ih (a + 1)
        simp only [countGenCalls_append]
        have h1 : countGenCalls [Event.genCall a] = 1 := rfl
        omega
      · simp [tenacityFrom, hf, hcond, countGenCalls]

/-- C2: the retry-wrapped dispatch makes at most 3 attempts; a non-retryable
failure propagates immediately without retry (shown after zero and after one
retryable failure); and when all 3 attempts fail the third attempt's failure
is re-raised to the caller unchanged, its classification preserved. -/
theorem retry_policy {α : Type} (f : Nat → Except PyExc α) :
    countGenCalls (dispatchWithRetry f).2 ≤ 3 ∧
    (∀ e, f 1 = Except.error e → retryable e = false →
      dispatchWithRetry f = (Except.error e, [Event.genCall 1])) ∧
    (∀ e1 e2, f 1 = Except.error e1 → retryable e1 = true →
      f 2 = Except.error e2 → retryable e2 = false →
      dispatchWithRetry f = (Except.error e2, [Event.genCall 1, Event.genCall 2])) ∧
    (∀ e1 e2 e3, f 1 = Except.error e1 → retryable e1 = true →
      f 2 = Except.error e2 → retryable e2 = true →
      f 3 = Except.error e3 →
      dispatchWithRetry f = (Except.error e3,
        [Event.genCall 1, Event.genCall 2, Event.genCall 3])) := by
  refine ⟨dispatch_genCalls_le f 3 1, ?_, ?_, ?_⟩
  · intro e h1 hr
    simp [dispatchWithRetry, tenacityFrom, h1, hr, MAX_RETRY_ATTEMPTS]
  · intro e1 e2 h1 hr1 h2 hr2
    simp [dispatchWithRetry, tenacityFrom, h1, hr1, h2, hr2, MAX_RETRY_ATTEMPTS]
  · intro e1 e2 e3 h1 hr1 h2 hr2 h3
    simp [dispatchWithRetry, tenacityFrom, h1, hr1, h2, hr2, h3, MAX_RETRY_ATTEMPTS]

/-- C2 witness: a dispatch that always times out is attempted exactly three
times and the timeout is re-raised. -/
theorem retry_policy_witness :
    dispatchWithRetry (fun _ => (Except.error PyExc.apiTimeoutError : Except PyExc Unit)) =
      (Except.error PyExc.apiTimeoutError,
       [Event.genCall 1, Event.genCall 2, Event.genCall 3]) :=
  (retry_policy fun _ => Except.error PyExc.apiTimeoutError).2.2.2
    PyExc.apiTimeoutError PyExc.apiTimeoutError PyExc.apiTimeoutError
    rfl rfl rfl rfl rfl

/-- An environment whose generation always yields an invalid payload and
whose repair call always fails with `RateLimitError`. -/
def loopEnv : PipelineEnv Unit Unit :=
  { gen := fun _ => Except.ok (),
    validate := fun _ => Except.error "payload invalido",
    repairResult := fun _ => Except.error PyExc.rateLimitError,
    repairSeconds := fun _ => 0 }

/-- A minimal normalized input (no metadata). -/
def trivialInput : NormalizedInput := { transcript := "Cliente: Bom dia" }

/-- C1 counterexample: the `@retry` decorator wraps the whole chain body, so
when the repair call itself raises a retryable `openai` error the entire body
— repair included — is retried: on this request the first validation fails,
yet repair is invoked three times and the repair-outcome metric is recorded
three times, refuting exactly-once-per-request. -/
theorem repair_retried_counterexample :
    loopEnv.validate () = Except.error "payload invalido" ∧
    countRepairCalls (extract_meeting_chain loopEnv trivialInput).2 = 3 ∧
    countRepairMetric "failed" (extract_meeting_chain loopEnv trivialInput).2 = 3 :=
  ⟨rfl, rfl, rfl⟩

/-- C1 amended: when the first validation of the generated payload fails and
the repair invocation does not itself fail with a retryable provider error,
the repair operation is invoked exactly once for the request; the repaired
payload is re-validated, a failing re-validation is terminal (the pipeline
ends in that validation error with no second repair), and the repair-outcome
metric is recorded exactly once — `success` when the repaired payload
validates, `failed` when it does not (or when the repair call failed). -/
theorem repair_single_shot {P R : Type} (env : PipelineEnv P R) (inp : NormalizedInput)
    (p : P) (vmsg : String)
    (hgen : env.gen 1 = Except.ok p)
    (hval : env.validate p = Except.error vmsg)
    (hnr : ∀ e, repair_json env 1 = Except.error e → retryable e = false) :
    countRepairCalls (extract_meeting_chain env inp).2 = 1 ∧
    countRepairMetrics (extract_meeting_chain env inp).2 = 1 ∧
    (∀ q, repair_json env 1 = Except.ok q →
      (∀ record : R, env.validate q = Except.ok record →
        (extract_meeting_chain env inp).1 =
          Except.ok (record,
            (compute_idempotency_key inp).getD IDEMPOTENCY_KEY_PLACEHOLDER) ∧
        countRepairMetric "success" (extract_meeting_chain env inp).2 = 1) ∧
      (∀ vmsg2, env.validate q = Except.error vmsg2 →
        (extract_meeting_chain env inp).1 =
          Except.error (PyExc.validationError vmsg2) ∧
        countRepairMetric "failed" (extract_meeting_chain env inp).2 = 1)) ∧
    (∀ e, repair_json env 1 = Except.error e →
      (extract_meeting_chain env inp).1 = Except.error e ∧
      countRepairMetric "failed" (extract_meeting_chain env inp).2 = 1) := by
  rcases hrep : repair_json env 1 with e | q
  · have hre : retryable e = false := hnr e hrep
    have hrun : extract_meeting_chain env inp =
        (Except.error e,
         [Event.genCall 1, Event.repairCall 1, Event.metricRepair "failed"]) := by
      simp [extract_meeting_chain, tenacityFrom, attemptBody, hgen, hval, hrep, hre,
        MAX_RETRY_ATTEMPTS]
    refine ⟨by rw [hrun]; rfl, by rw [hrun]; rfl, ?_, ?_⟩
    · intro q hq; exact absurd hq (by simp)
    · intro e2 he2
      injection he2 with h
      subst h
      exact ⟨by rw [hrun], by rw [hrun]; rfl⟩
  · rcases hv2 : env.validate q with vmsg2 | record
    · have hrun : extract_meeting_chain env inp =
          (Except.error (PyExc.validationError vmsg2),
           [Event.genCall 1, Event.repairCall 1, Event.metricRepair "failed"]) := by
        simp [extract_meeting_chain, tenacityFrom, attemptBody, hgen, hval, hrep, hv2,
          retryable, MAX_RETRY_ATTEMPTS]
      refine ⟨by rw [hrun]; rfl, by rw [hrun]; rfl, ?_, ?_⟩
      · intro q2 hq2
        injection hq2 with h
        subst h
        refine ⟨?_, ?_⟩
        · intro record hrec; rw [hv2] at hrec; exact absurd hrec (by simp)
        · intro vmsg3 hmsg3
          rw [hv2] at hmsg3
          injection hmsg3 with h2
          subst h2
          exact ⟨by rw [hrun], by rw [hrun]; rfl⟩
      · intro e he; exact absurd he (by simp)
    · have hrun : extract_meeting_chain env inp =
          (Except.ok (record,
            (compute_idempotency_key inp).getD IDEMPOTENCY_KEY_PLACEHOLDER),
           [Event.genCall 1, Event.repairCall 1, Event.metricRepair "success",
            Event.stampKey]) := by
        simp [extract_meeting_chain, tenacityFrom, attemptBody, hgen, hval, hrep, hv2,
          MAX_RETRY_ATTEMPTS]
      refine ⟨by rw [hrun]; rfl, by rw [hrun]; rfl, ?_, ?_⟩
      · intro q2 hq2
        injection hq2 with h
        subst h
        refine ⟨?_, ?_⟩
        · intro record2 hrec2
          rw [hv2] at hrec2
          injection hrec2 with h2
          subst h2
          exact ⟨by rw [hrun], by rw [hrun]; rfl⟩
        · intro vmsg3 hmsg3; rw [hv2] at hmsg3; exact absurd hmsg3 (by simp)
      · intro e he; exact absurd he (by simp)

/-- An environment whose first payload is invalid and whose repair returns a
payload that validates. -/
def repairEnv : PipelineEnv Bool Unit :=
  { gen := fun _ => Except.ok false,
    validate := fun p =>
      if p then Except.ok ()
      else Except.error "summary deve ter 100-200 palavras, tem 50",
    repairResult := fun _ => Except.ok true,
    repairSeconds := fun _ => 1 }

/-- C1 witness: on a failing first validation with a well-behaved repair, the
repair runs once, the success metric is recorded once, and the request
succeeds with the placeholder key. -/
theorem repair_single_shot_witness :
    countRepairCalls (extract_meeting_chain repairEnv trivialInput).2 = 1 ∧
    countRepairMetric "success" (extract_meeting_chain repairEnv trivialInput).2 = 1 ∧
    (extract_meeting_chain repairEnv trivialInput).1 =
      Except.ok ((), IDEMPOTENCY_KEY_PLACEHOLDER) := by
  have hnr : ∀ e, repair_json repairEnv 1 = Except.error e → retryable e = false := by
    intro e he
    simp [repair_json, repairEnv, REPAIR_TIMEOUT_SECONDS] at he
  have h := repair_single_shot repairEnv trivialInput false
    "summary deve ter 100-200 palavras, tem 50" rfl rfl hnr
  have h2 := (h.2.2.1 true rfl).1 () rfl
  refine ⟨h.1, h2.2, ?_⟩
  rw [h2.1]
  rfl

/-- The stamping postcondition of one run outcome: a success carries exactly
the derived-or-placeholder key and stamped exactly once; a failure never
stamped. -/
def StampSpec {R : Type} (key : String)
    (out : Except PyExc (R × String) × List Event) : Prop :=
  (∀ (record : R) (k : String), out.1 = Except.ok (record, k) →
    k = key ∧ countStamps out.2 = 1) ∧
  (∀ e, out.1 = Except.error e → countStamps out.2 = 0)

/-- Every single body execution satisfies the stamping postcondition. -/
theorem attemptBody_stampSpec {P R : Type} (env : PipelineEnv P R)
    (inp : NormalizedInput) (n : Nat) :
    StampSpec ((compute_idempotency_key inp).getD IDEMPOTENCY_KEY_PLACEHOLDER)
      (attemptBody env inp n) := by
  unfold StampSpec
  cases hg : env.gen n with
  | error e => simp [attemptBody, hg, countStamps]
  | ok raw =>
    cases hv : env.validate raw with
    | ok record =>
      constructor
      · intro r k hk
        simp only [attemptBody, hg, hv] at hk ⊢
        injection hk with h
        injection h with h1 h2
        subst h1; subst h2
        exact ⟨rfl, rfl⟩
      · intro e he; simp [attemptBody, hg, hv] at he
    | error m =>
      cases hr : repair_json env n with
      | error e =>
        constructor
        · intro r k hk; simp [attemptBody, hg, hv, hr] at hk
        · intro e2 he2; simp [attemptBody, hg, hv, hr, countStamps]
      | ok q =>
        cases hv2 : env.validate q with
        | ok record =>
          constructor
          · intro r k hk
            simp only [attemptBody, hg, hv, hr, hv2] at hk ⊢
            injection hk with h
            injection h with h1 h2
            subst h1; subst h2
            exact ⟨rfl, rfl⟩
          · intro e he; simp [attemptBody, hg, hv, hr, hv2] at he
        | error m2 =>
          constructor
          · intro r k hk; simp [attemptBody, hg, hv, hr, hv2] at hk
          · intro e2 he2; simp [attemptBody, hg, hv, hr, hv2, countStamps]

/-- The retry wrapper preserves the stamping postcondition: failed attempts
contribute no stamps, and the final outcome's stamps come from its own body
execution alone. -/
theorem tenacityFrom_stampSpec {R : Type} (key : String)
    (body : Nat → Except PyExc (R × String) × List Event)
    (hb : ∀ n, StampSpec key (body n)) :
    ∀ (fuel attempt : Nat), StampSpec key (tenacityFrom body attempt fuel) := by
  intro fuel
  induction fuel with
  | zero =>
    intro a
    constructor
    · intro r k h; exact absurd h (by simp [tenacityFrom])
    · intro e h; simp [tenacityFrom, countStamps]
  | succ m ih =>
    intro a
    rcases hbody : body a with ⟨res, evs⟩
    rcases res with e | v
    · have hevs : countStamps evs = 0 := by
        have := (hb a).2 e
        rw [hbody] at this
        exact this rfl
      by_cases hcond : retryable e = true ∧ a < MAX_RETRY_ATTEMPTS
      · have hrun : tenacityFrom body a (m + 1) =
            ((tenacityFrom body (a + 1) m).1,
             evs ++ (tenacityFrom body (a + 1) m).2) := by
          simp [tenacityFrom, hbody, hcond]
        constructor
        · intro r k h
          rw [hrun] at h
          obtain ⟨hk, hcount⟩ := (ih (a + 1)).1 r k h
          refine ⟨hk, ?_⟩
          rw [hrun]
          simp [countStamps_append, hevs, hcount]
        · intro e2 h
          rw [hrun] at h
          have hcount := (ih (a + 1)).2 e2 h
          rw [hrun]
          simp [countStamps_append, hevs, hcount]
      · have hrun : tenacityFrom body a (m + 1) = (Except.error e, evs) := by
          simp [tenacityFrom, hbody, hcond]
        constructor
        · intro r k h; rw [hrun] at h; exact absurd h (by simp)
        · intro e2 h; rw [hrun]; simpa using hevs
    · have hrun : tenacityFrom body a (m + 1) = (Except.ok v, evs) := by
        simp [tenacityFrom, hbody]
      have hba := hb a
      rw [hbody] at hba
      constructor
      · intro r k h
        rw [hrun] at h
        refine ⟨(hba.1 r k h).1, ?_⟩
        rw [hrun]
        exact (hba.1 r k h).2
      · intro e2 h; rw [hrun] at h; exact absurd h (by simp)

/-- C6: in every run of the orchestrator the idempotency key is stamped
exactly once on success — with the derived key, or the fixed placeholder when
the key cannot be derived — and only after a validation (direct or
post-repair) has succeeded; on every failing run, across all retry attempts,
the stamping step never executes. -/
theorem idempotency_stamping {P R : Type} (env : PipelineEnv P R)
    (inp : NormalizedInput) :
    (∀ (record : R) (key : String),
      (extract_meeting_chain env inp).1 = Except.ok (record, key) →
      key = (compute_idempotency_key inp).getD IDEMPOTENCY_KEY_PLACEHOLDER ∧
      countStamps (extract_meeting_chain env inp).2 = 1) ∧
    (∀ e, (extract_meeting_chain env inp).1 = Except.error e →
      countStamps (extract_meeting_chain env inp).2 = 0) :=
  tenacityFrom_stampSpec _ _ (fun n => attemptBody_stampSpec env inp n)
    MAX_RETRY_ATTEMPTS 1

/-- An environment whose generation succeeds and validates directly. -/
def genOkEnv : PipelineEnv Unit Unit :=
  { gen := fun _ => Except.ok (),
    validate := fun _ => Except.ok (),
    repairResult := fun _ => Except.error PyExc.apiError,
    repairSeconds := fun _ => 0 }

/-- A fully populated normalized input whose idempotency key is derivable. -/
def fullInput : NormalizedInput :=
  { transcript := "Cliente: Bom dia", meeting_id := some "MTG123",
    customer_id := some "CUST456", meet_date := some ⟨"2025-09-10T14:30:00"⟩ }

/-- C6 witness: a directly validated run stamps exactly once, and the stamped
key of the concrete input is the derived SHA-256 digest. -/
theorem idempotency_stamping_witness :
    countStamps (extract_meeting_chain genOkEnv fullInput).2 = 1 ∧
    (compute_idempotency_key fullInput).getD IDEMPOTENCY_KEY_PLACEHOLDER =
      sha256Hex ("MTG123" ++ "2025-09-10T14:30:00" ++ "CUST456") :=
  ⟨((idempotency_stamping genOkEnv fullInput).1 () _ rfl).2, rfl⟩

/-- C7: the repair call is bounded by the 15-second timeout constant; a
repair call exceeding it fails with the dedicated timeout exception — a
non-retryable, terminal failure, distinct from every other classification the
pipeline raises — the run ends in exactly that error and no further repair is
attempted. -/
theorem repair_timeout_classified {P R : Type} (env : PipelineEnv P R)
    (inp : NormalizedInput) (p : P) (vmsg : String)
    (hgen : env.gen 1 = Except.ok p)
    (hval : env.validate p = Except.error vmsg)
    (htime : env.repairSeconds 1 > REPAIR_TIMEOUT_SECONDS) :
    REPAIR_TIMEOUT_SECONDS = 15 ∧
    repair_json env 1 = Except.error repairTimeoutError ∧
    retryable repairTimeoutError = false ∧
    (extract_meeting_chain env inp).1 = Except.error repairTimeoutError ∧
    countRepairCalls (extract_meeting_chain env inp).2 = 1 ∧
    repairTimeoutError ≠ PyExc.rateLimitError ∧
    repairTimeoutError ≠ PyExc.apiTimeoutError ∧
    repairTimeoutError ≠ PyExc.apiError ∧
    (∀ m, repairTimeoutError ≠ PyExc.validationError m) := by
  have hrep : repair_json env 1 = Except.error repairTimeoutError := by
    simp [repair_json, htime]
  have hrun : extract_meeting_chain env inp =
      (Except.error repairTimeoutError,
       [Event.genCall 1, Event.repairCall 1, Event.metricRepair "failed"]) := by
    simp [extract_meeting_chain, tenacityFrom, attemptBody, hgen, hval, hrep,
      retryable, repairTimeoutError, MAX_RETRY_ATTEMPTS]
  refine ⟨rfl, hrep, rfl, by rw [hrun], by rw [hrun]; rfl, ?_, ?_, ?_, ?_⟩
  · simp [repairTimeoutError]
  · simp [repairTimeoutError]
  · simp [repairTimeoutError]
  · intro m; simp [repairTimeoutError]

/-- An environment whose repair call takes 16 seconds. -/
def timeoutEnv : PipelineEnv Unit Unit :=
  { gen := fun _ => Except.ok (),
    validate := fun _ => Except.error "payload invalido",
    repairResult := fun _ => Except.ok (),
    repairSeconds := fun _ => 16 }

/-- C7 witness: a 16-second repair call ends the run with the timeout
exception after exactly one repair attempt. -/
theorem repair_timeout_classified_witness :
    (extract_meeting_chain timeoutEnv trivialInput).1 =
      Except.error repairTimeoutError ∧
    countRepairCalls (extract_meeting_chain timeoutEnv trivialInput).2 = 1 := by
  have h := repair_timeout_classified timeoutEnv trivialInput () "payload invalido"
    rfl rfl (by decide)
  exact ⟨h.2.2.2.1, h.2.2.2.2.1⟩

end MeetingPipeline

